import Mathlib

/-!
Shallow embedding of the poll/notify engine, session store, portal client and
question-submission path of the medical-portal Telegram bot
(`telegram_bot.py`, `medical_portal_client.py`), together with theorems
settling the frozen claims about its specification.
-/

set_option maxHeartbeats 1000000

namespace MedPortal

/-- Python exception kinds relevant to the embedded code paths. -/
inductive PyError
  | typeError
  | valueError
  | jsonDecodeError
  | keyError
  | requestException
deriving DecidableEq

/-! ## Message records (output of `MedicalPortalClient.list_messages`)

A listing entry is a Python dict; `check_for_new_messages` reads only
`msg.get('id')` (a string extracted from the URL, or `None`) and
`msg.get('answered')` (`True`/`False` from the `data-reaction` attribute, or
`None` when the attribute is absent). `int(msg.get('id'))` raises `TypeError`
when the id is `None` and `ValueError` when the string is not numeric; the
three-way outcome of that conversion is what the `IdField` type records. -/

inductive IdField
  | missing
  | nonNumeric (s : String)
  | numeric (n : Int)
deriving DecidableEq

/-- `int(msg.get('id'))` from `telegram_bot.py` line 545. -/
def pyIntId : IdField → Except PyError Int
  | .missing => .error .typeError
  | .nonNumeric _ => .error .valueError
  | .numeric n => .ok n

/-- Whether the conversion `int(msg.get('id'))` succeeds. -/
def isNumericId : IdField → Bool
  | .numeric _ => true
  | _ => false

/-- The integer value of a numeric id field (0 on the raising cases; only
used in statements under an `isNumericId` hypothesis). -/
def idNum : IdField → Int
  | .numeric n => n
  | .missing => 0
  | .nonNumeric _ => 0

/-- The fields of a listing entry read by the poll cycle. -/
structure Msg where
  idField : IdField
  answered : Option Bool
deriving DecidableEq

/-! ## The poll cycle (`TelegramMedicalBot.check_for_new_messages`) -/

/-- Bot cursor state: `self.last_message_id` (in memory) and the
`last_message_id` field of `/app/data/last_message_state.json` (persisted by
`_save_last_message_state`, read back by `_load_last_message_state`). -/
structure BotState where
  lastMessageId : Option Int
  savedLastMessageId : Option Int
deriving DecidableEq

/-- Python truthiness test `if self.last_message_id and msg_id > self.last_message_id`
(line 547): the cursor must be non-`None` and non-zero, and strictly below the id. -/
def isNewAgainst (last : Option Int) (n : Int) : Bool :=
  match last with
  | none => false
  | some c => decide (c ≠ 0) && decide (c < n)

/-- The diff loop of `check_for_new_messages` (lines 540-548): walks the
listing in order with accumulators `new_last_message_id` (starting 0) and
`new_messages` (starting empty); skips entries whose `answered` is falsy,
converts the id (which may raise), folds the running max, and appends entries
strictly above a truthy cursor. -/
def diffLoop (last : Option Int) : List Msg → Int → List Msg → Except PyError (Int × List Msg)
  | [], acc, cur => .ok (acc, cur)
  | m :: rest, acc, cur =>
    if m.answered = some true then
      match m.idField with
      | .numeric n =>
          diffLoop last rest (max acc n) (if isNewAgainst last n then cur ++ [m] else cur)
      | .missing => .error .typeError
      | .nonNumeric _ => .error .valueError
    else
      diffLoop last rest acc cur

/-- The value of the `new_last_message_id` accumulator when the loop
completes: running max of the numeric ids of answered entries. -/
def answeredMax : List Msg → Int → Int
  | [], acc => acc
  | m :: rest, acc =>
    if m.answered = some true then
      match m.idField with
      | .numeric n => answeredMax rest (max acc n)
      | _ => answeredMax rest acc
    else answeredMax rest acc

/-- Membership test for the `new_messages` accumulator: answered, numeric id,
and strictly above a truthy cursor. -/
def isNewRecord (last : Option Int) (m : Msg) : Bool :=
  decide (m.answered = some true) &&
    match m.idField with
    | .numeric n => isNewAgainst last n
    | _ => false

/-- `TelegramMedicalBot._send_message_notification` (lines 560-604): the whole
body (detail fetch plus Telegram send) runs inside `try/except Exception`, so
the call never raises; `deliver` is the outcome of that body, and the returned
Bool records whether it succeeded. -/
def sendMessageNotification (deliver : Msg → Except PyError Unit) (m : Msg) : Bool :=
  match deliver m with
  | .ok _ => true
  | .error _ => false

/-- Result of one poll cycle: the notification attempts in the order they were
made, the per-attempt delivery outcomes, and the cursor state afterwards. -/
structure CycleResult where
  notified : List Msg
  outcomes : List Bool
  state : BotState
deriving DecidableEq

/-- `TelegramMedicalBot.check_for_new_messages` (lines 515-558), for a cycle in
which the checker is running. `fetched` is the value of `_get_messages_sync`:
`none` when authentication is unavailable (skip), otherwise the listing.
An empty listing returns early. The diff loop may raise on an unparsable id;
that exception is caught by the `except` at line 557 before any notification
was attempted and before the cursor was touched. Otherwise notifications are
attempted for `reversed(new_messages)` one at a time (each attempt total, see
`sendMessageNotification`), and then the cursor is set — unconditionally — to
`new_last_message_id` in memory and on disk. -/
def checkForNewMessages (deliver : Msg → Except PyError Unit) (st : BotState)
    (fetched : Option (List Msg)) : CycleResult :=
  match fetched with
  | none => ⟨[], [], st⟩
  | some msgs =>
    if msgs.isEmpty then ⟨[], [], st⟩
    else
      match diffLoop st.lastMessageId msgs 0 [] with
      | .error _ => ⟨[], [], st⟩
      | .ok (newLast, newMsgs) =>
        ⟨newMsgs.reverse, newMsgs.reverse.map (sendMessageNotification deliver),
         ⟨some newLast, some newLast⟩⟩

/-! ### Concrete records used in counterexamples and witnesses -/

/-- An answered record with identifier 5. -/
def msg5A : Msg := ⟨.numeric 5, some true⟩

/-- An answered record with identifier 7. -/
def msg7A : Msg := ⟨.numeric 7, some true⟩

/-- An answered record with identifier 9. -/
def msg9A : Msg := ⟨.numeric 9, some true⟩

/-- An answered record with identifier 11. -/
def msg11A : Msg := ⟨.numeric 11, some true⟩

/-- An answered record with identifier 14. -/
def msg14A : Msg := ⟨.numeric 14, some true⟩

/-- An unanswered record with identifier 20. -/
def msg20U : Msg := ⟨.numeric 20, some false⟩

/-- An answered record whose `id` field is `None`. -/
def msgBadId : Msg := ⟨.missing, some true⟩

/-- A delivery body that always succeeds. -/
def deliverOk : Msg → Except PyError Unit := fun _ => .ok ()

/-- A delivery body that always fails (e.g. the Telegram send raises). -/
def deliverFail : Msg → Except PyError Unit := fun _ => .error .requestException

/-! ## Session liveness probe (`MedicalPortalClient._is_session_valid`) -/

/-- Outcome of the probe request `GET {base_url}/en/safe` issued with
`allow_redirects=False`: either a response with a status code, or any raised
exception (network failure). -/
inductive ProbeResp
  | status (n : Nat)
  | netErr
deriving DecidableEq

/-- `MedicalPortalClient._is_session_valid` (lines 131-138): the session is
reported valid iff the probe status differs from 303; any exception yields
`false`. -/
def isSessionValid : ProbeResp → Bool
  | .status n => n != 303
  | .netErr => false

/-! ## Session store (`MedicalPortalClient._load_session`) -/

/-- A cookie as serialized by `_save_session`. -/
structure Cookie where
  name : String
  value : String
  domain : String
  path : String
  secure : Bool
  expires : Option Int
deriving DecidableEq

/-- One element of the snapshot's `cookies` list as consumed by
`self.session.cookies.set(**cookie)`: either a well-formed mapping, or one
whose keys `set` does not accept, which makes that call raise `TypeError`. -/
inductive CookieEntry
  | ok (c : Cookie)
  | badShape
deriving DecidableEq

/-- The durable session snapshot file: absent, not decodable as JSON
(`json.load` raises `JSONDecodeError`), or decoded with a `cookies` list. -/
inductive SnapshotFile
  | absent
  | malformed
  | parsed (cookies : List CookieEntry)
deriving DecidableEq

/-- In-memory client state touched by `_load_session`: the cookie jar and the
`is_authenticated` flag. -/
structure ClientState where
  cookies : List Cookie
  isAuthenticated : Bool
deriving DecidableEq

/-- The cookie-restoring loop of `_load_session` (line 90-91): sets each entry
into the jar in order; a bad-shaped entry raises `TypeError`. -/
def setCookies (jar : List Cookie) : List CookieEntry → Except PyError (List Cookie)
  | [] => .ok jar
  | .ok c :: rest => setCookies (jar ++ [c]) rest
  | .badShape :: _ => .error .typeError

/-- `MedicalPortalClient._load_session` (lines 81-103). The `try` block loads
the JSON, restores cookies and probes validity; the `except` clause catches
only `json.JSONDecodeError` and `KeyError`, clearing the jar. A `TypeError`
raised while restoring a cookie entry is not caught and escapes to the caller
(`Except.error`). The probe itself never raises (`_is_session_valid` catches
everything). -/
def loadSession (st : ClientState) (file : SnapshotFile) (probe : ProbeResp) :
    Except PyError ClientState :=
  match file with
  | .absent => .ok st
  | .malformed => .ok ⟨[], st.isAuthenticated⟩
  | .parsed entries =>
    match setCookies st.cookies entries with
    | .error e => .error e
    | .ok jar =>
      if isSessionValid probe then .ok ⟨jar, true⟩
      else .ok ⟨jar, st.isAuthenticated⟩

/-! ## Detail-page extraction (`MedicalPortalClient.get_message_details`) -/

/-- The `div[data-speech="question"]` element: its inner `div.content`, when
present, carries the question text. -/
structure QuestionBlock where
  content : Option String
deriving DecidableEq

/-- The `div[data-speech="answer"]` element: its first inner `div` carries the
answer text and its inner `h2` the sender. -/
structure AnswerBlock where
  innerDiv : Option String
  senderH2 : Option String
deriving DecidableEq

/-- The parse-relevant structure of a detail page: the optional
`p.small-spacer-bottom` date paragraph text, the optional question and answer
blocks, the optional `h1.no-spacer-bottom` subject text, and the page's links
as (link text, href) pairs. -/
structure DetailPage where
  datePara : Option String
  question : Option QuestionBlock
  answer : Option AnswerBlock
  subjectH1 : Option String
  links : List (String × String)
deriving DecidableEq

/-- The dictionary built by `get_message_details`. -/
structure MessageDetail where
  url : String
  content : String
  question : String
  answer : String
  date : Option String
  time : Option String
  sender : Option String
  subject : Option String
  attachments : List (String × String)
deriving DecidableEq

/-- Whether the first character list leads the second one. -/
def charsLead : List Char → List Char → Bool
  | [], _ => true
  | _ :: _, [] => false
  | a :: as, b :: bs => a == b && charsLead as bs

/-- Whether the first character list occurs contiguously in the second. -/
def charsContain (sub : List Char) : List Char → Bool
  | [] => charsLead sub []
  | c :: cs => charsLead sub (c :: cs) || charsContain sub cs

/-- Python substring test `sub in s`. -/
def pyContains (sub s : String) : Bool := charsContain sub.data s.data

/-- Python `str.lower()` (ASCII case folding suffices for the compared
literals). -/
def pyLower (s : String) : String := String.mk (s.data.map Char.toLower)

/-- The attachment filter of `get_message_details` line 455: the href, lowered,
contains one of the fixed extensions. -/
def hasAllowedExt (href : String) : Bool :=
  [".pdf", ".doc", ".docx", ".jpg", ".png"].any (fun ext => pyContains ext (pyLower href))

/-- The extraction body of `get_message_details` (lines 400-461): every field
is guarded by the presence of its structural element, so extraction is total —
a missing element leaves the corresponding field at its initial value. -/
def parseMessageDetails (url : String) (p : DetailPage) : MessageDetail :=
  let date : Option String :=
    match p.datePara with
    | some t => if t.startsWith "Date:" then some ((t.replace "Date:" "").trim) else none
    | none => none
  let q : String :=
    match p.question with
    | some qb => match qb.content with | some s => s | none => ""
    | none => ""
  let a : String :=
    match p.answer with
    | some ab => match ab.innerDiv with | some s => s | none => ""
    | none => ""
  let contentParts : List String :=
    (if q ≠ "" then ["Question: " ++ q] else []) ++ (if a ≠ "" then ["Answer: " ++ a] else [])
  let sender : Option String :=
    match p.answer with
    | some ab => ab.senderH2
    | none => none
  ⟨url, String.intercalate "\n\n" contentParts, q, a, date, none, sender, p.subjectH1,
   p.links.filter (fun l => hasAllowedExt l.2)⟩

/-- `MedicalPortalClient.get_message_details` (lines 379-471): `none` when not
authenticated or when the page request fails (exceptions are caught and
converted to `None`); otherwise the extracted detail record. -/
def getMessageDetails (isAuth : Bool) (url : String) (resp : Option DetailPage) :
    Option MessageDetail :=
  if !isAuth then none
  else
    match resp with
    | none => none
    | some p => some (parseMessageDetails url p)

/-! ## Question submission (`MedicalPortalClient.ask_question` and
`TelegramMedicalBot.ask_command`) -/

/-- A fetched consult page: the extracted hidden form fields
(`_get_form_data`, name/value of every hidden input) and the response text. -/
structure Page where
  hiddenFields : List (String × String)
  text : String
deriving DecidableEq

/-- An HTTP response to a consult-page request: a status code with a page, or
a raised `requests.RequestException`. -/
inductive Resp
  | ok (status : Nat) (page : Page)
  | netErr
deriving DecidableEq

/-- A network request issued by the client. The POST carries the submitted
form data and the optional attachment actually included. -/
inductive PortalCall
  | probeSafe
  | getConsult
  | postConsult (data : List (String × String)) (files : Option String)
deriving DecidableEq

/-- The environment of one question-submission interaction: the probe outcome,
the responses to `GET /en/consult` and `POST /en/consult`, and the filesystem
predicate behind `os.path.exists`. -/
structure PortalEnv where
  probe : ProbeResp
  consultGet : Resp
  consultPost : Resp
  pathExists : String → Bool

/-- Python `dict.update` for a single key: replace in place or append. -/
def pyDictUpdate (d : List (String × String)) (k v : String) : List (String × String) :=
  if d.any (fun p => p.1 == k) then d.map (fun p => if p.1 == k then (k, v) else p)
  else d ++ [(k, v)]

/-- `MedicalPortalClient.ask_question` (lines 500-563), returning the network
calls it performs in order and its Bool result. There is no length check on
`question`; an attachment path that does not exist is silently dropped
(`files` stays `None`) and submission proceeds. All exceptions are caught and
yield `False`. -/
def askQuestion (isAuth : Bool) (question : String) (draft : Bool)
    (attachmentPath : Option String) (env : PortalEnv) : List PortalCall × Bool :=
  if !isAuth then ([], false)
  else
    match env.consultGet with
    | .netErr => ([.getConsult], false)
    | .ok status page =>
      if 400 ≤ status then ([.getConsult], false)
      else
        let fd := pyDictUpdate (pyDictUpdate page.hiddenFields "question" question)
          "draft" (if draft then "on" else "")
        let files : Option String :=
          match attachmentPath with
          | some p => if env.pathExists p then some p else none
          | none => none
        match env.consultPost with
        | .netErr => ([.getConsult, .postConsult fd files], false)
        | .ok status2 page2 =>
          if 400 ≤ status2 then ([.getConsult, .postConsult fd files], false)
          else
            let t := pyLower page2.text
            if pyContains "question" t && (pyContains "submitted" t || pyContains "sent" t) then
              ([.getConsult, .postConsult fd files], true)
            else if pyContains "error" t then
              ([.getConsult, .postConsult fd files], false)
            else
              ([.getConsult, .postConsult fd files], true)

/-- `TelegramMedicalBot._ensure_authenticated` (lines 493-502):
`is_authenticated and _is_session_valid()`; the probe request is only issued
when the flag is set (short-circuit). -/
def ensureAuthenticated (isAuth : Bool) (env : PortalEnv) : List PortalCall × Bool :=
  if isAuth then ([.probeSafe], isSessionValid env.probe)
  else ([], false)

/-- Replies `ask_command` can produce. -/
inductive AskReply
  | usageError
  | tooLong
  | authRequired
  | success
  | failed
deriving DecidableEq

/-- `TelegramMedicalBot.ask_command` (lines 246-290) for an authorized chat,
returning the reply and the portal network calls performed. The 600-character
check runs before `_ask_question_sync`, hence before any portal request
(including the liveness probe). `_ask_question_sync` never raises
(`ask_question` catches everything), so the handler's `except` is dead here. -/
def askCommand (args : List String) (isAuth : Bool) (env : PortalEnv) :
    AskReply × List PortalCall :=
  if args.isEmpty then (.usageError, [])
  else
    let question := String.intercalate " " args
    if question.length > 600 then (.tooLong, [])
    else
      let auth := ensureAuthenticated isAuth env
      if !auth.2 then (.authRequired, auth.1)
      else
        let r := askQuestion isAuth question false none env
        (if r.2 then .success else .failed, auth.1 ++ r.1)

/-- Environment used in the question-submission counterexample and witness:
the portal is reachable, the consult form has one hidden token, the POST
lands on a confirmation page, and no filesystem path exists. -/
def envC2 : PortalEnv :=
  ⟨.status 200, .ok 200 ⟨[("token", "tok")], "form"⟩,
   .ok 200 ⟨[], "Your question has been submitted"⟩, fun _ => false⟩

/-- A detail page whose answer block is absent but whose question block is
present with text. -/
def pageNoAnswer : DetailPage :=
  ⟨some "Date: 3 October 2025", some ⟨some "How are you?"⟩, none, some "E-consult", []⟩

/-- A 601-character question text. -/
def q601 : String := String.mk (List.replicate 601 'a')

/-! ## Lemmas about the diff loop -/

theorem answeredMax_le_self (msgs : List Msg) : ∀ acc : Int, acc ≤ answeredMax msgs acc := by
  induction msgs with
  | nil => intro acc; simp [answeredMax]
  | cons m rest ih =>
    intro acc
    unfold answeredMax
    by_cases h : m.answered = some true
    · simp only [h, if_pos]
      cases hid : m.idField with
      | numeric n => exact le_trans (le_max_left acc n) (ih (max acc n))
      | missing => exact ih acc
      | nonNumeric s => exact ih acc
    · simp only [h, if_neg, if_false]
      exact ih acc

theorem answeredMax_mono (msgs : List Msg) : ∀ {a b : Int}, a ≤ b →
    answeredMax msgs a ≤ answeredMax msgs b := by
  induction msgs with
  | nil => intro a b h; simpa [answeredMax] using h
  | cons m rest ih =>
    intro a b h
    unfold answeredMax
    by_cases hm : m.answered = some true
    · simp only [hm, if_pos]
      cases hid : m.idField with
      | numeric n => exact ih (max_le_max h le_rfl)
      | missing => exact ih h
      | nonNumeric s => exact ih h
    · simp only [hm, if_neg, if_false]
      exact ih h

theorem le_answeredMax (msgs : List Msg) : ∀ (acc : Int) (m : Msg), m ∈ msgs →
    m.answered = some true → isNumericId m.idField = true →
    idNum m.idField ≤ answeredMax msgs acc := by
  induction msgs with
  | nil => intro acc m hm; exact absurd hm (List.not_mem_nil m)
  | cons m0 rest ih =>
    intro acc m hm ha hn
    rcases List.mem_cons.mp hm with h | h
    · subst h
      unfold answeredMax
      simp only [ha, if_pos]
      cases hid : m.idField with
      | numeric n =>
        simp only [idNum, hid]
        exact le_trans (le_max_right acc n) (answeredMax_le_self rest (max acc n))
      | missing => rw [hid] at hn; simp [isNumericId] at hn
      | nonNumeric s => rw [hid] at hn; simp [isNumericId] at hn
    · unfold answeredMax
      by_cases hm0 : m0.answered = some true
      · simp only [hm0, if_pos]
        cases hid : m0.idField with
        | numeric n => exact ih (max acc n) m h ha hn
        | missing => exact ih acc m h ha hn
        | nonNumeric s => exact ih acc m h ha hn
      · simp only [hm0, if_neg, if_false]
        exact ih acc m h ha hn

theorem answeredMax_attained (msgs : List Msg) : ∀ acc : Int,
    answeredMax msgs acc = acc ∨
    ∃ m ∈ msgs, m.answered = some true ∧ isNumericId m.idField = true ∧
      idNum m.idField = answeredMax msgs acc := by
  induction msgs with
  | nil => intro acc; left; simp [answeredMax]
  | cons m0 rest ih =>
    intro acc
    unfold answeredMax
    by_cases hm0 : m0.answered = some true
    · simp only [hm0, if_pos]
      cases hid : m0.idField with
      | numeric n =>
        dsimp only
        rcases ih (max acc n) with h | ⟨m, hm, ha, hn, he⟩
        · rcases le_or_lt n acc with hle | hlt
          · rw [max_eq_left hle] at h ⊢
            left; exact h
          · rw [max_eq_right (le_of_lt hlt)] at h
            right
            refine ⟨m0, List.mem_cons_self m0 rest, hm0, by simp [isNumericId, hid], ?_⟩
            rw [max_eq_right (le_of_lt hlt), h]
            simp [idNum, hid]
        · right; exact ⟨m, List.mem_cons_of_mem m0 hm, ha, hn, he⟩
      | missing =>
        dsimp only
        rcases ih acc with h | ⟨m, hm, ha, hn, he⟩
        · left; exact h
        · right; exact ⟨m, List.mem_cons_of_mem m0 hm, ha, hn, he⟩
      | nonNumeric s =>
        dsimp only
        rcases ih acc with h | ⟨m, hm, ha, hn, he⟩
        · left; exact h
        · right; exact ⟨m, List.mem_cons_of_mem m0 hm, ha, hn, he⟩
    · simp only [hm0, if_neg, if_false]
      rcases ih acc with h | ⟨m, hm, ha, hn, he⟩
      · left; exact h
      · right; exact ⟨m, List.mem_cons_of_mem m0 hm, ha, hn, he⟩

/-- When every answered entry has a numeric id, the diff loop completes and
returns the running max together with the appended new records (in listing
order). -/
theorem diffLoop_eq_ok (last : Option Int) (msgs : List Msg) : ∀ (acc : Int) (cur : List Msg),
    (∀ m ∈ msgs, m.answered = some true → isNumericId m.idField = true) →
    diffLoop last msgs acc cur =
      .ok (answeredMax msgs acc, cur ++ msgs.filter (isNewRecord last)) := by
  induction msgs with
  | nil => intro acc cur _; simp [diffLoop, answeredMax]
  | cons m0 rest ih =>
    intro acc cur h
    have h0 := h m0 (List.mem_cons_self m0 rest)
    have hrest : ∀ m ∈ rest, m.answered = some true → isNumericId m.idField = true :=
      fun m hm => h m (List.mem_cons_of_mem m0 hm)
    unfold diffLoop answeredMax
    by_cases hm0 : m0.answered = some true
    · simp only [hm0, if_pos]
      cases hid : m0.idField with
      | numeric n =>
        dsimp only
        rw [ih (max acc n) _ hrest]
        have hfil : List.filter (isNewRecord last) (m0 :: rest) =
            (if isNewAgainst last n then [m0] else []) ++ List.filter (isNewRecord last) rest := by
          by_cases hnew : isNewAgainst last n = true
          · simp [List.filter, isNewRecord, hm0, hid, hnew]
          · simp only [Bool.not_eq_true] at hnew
            simp [List.filter, isNewRecord, hm0, hid, hnew]
        rw [hfil]
        by_cases hnew : isNewAgainst last n = true
        · simp [hnew]
        · simp only [Bool.not_eq_true] at hnew
          simp [hnew]
      | missing => rw [hid] at h0; simp [isNumericId] at h0; exact absurd (h0 hm0) (by simp)
      | nonNumeric s => rw [hid] at h0; simp [isNumericId] at h0; exact absurd (h0 hm0) (by simp)
    · simp only [hm0, if_neg, if_false]
      rw [ih acc cur hrest]
      have hfil : List.filter (isNewRecord last) (m0 :: rest) =
          List.filter (isNewRecord last) rest := by
        simp [List.filter, isNewRecord, hm0]
      rw [hfil]

/-- Any successful diff-loop run bounds every appended record by the returned
max, and every appended record is an answered listing entry strictly above the
truthy cursor. -/
theorem diffLoop_mem_ok (last : Option Int) (msgs : List Msg) :
    ∀ (acc : Int) (cur : List Msg) (res : Int) (out : List Msg),
    diffLoop last msgs acc cur = .ok (res, out) →
    acc ≤ res ∧ ∀ m ∈ out, m ∈ cur ∨
      (m ∈ msgs ∧ m.answered = some true ∧ isNumericId m.idField = true ∧
       idNum m.idField ≤ res ∧ isNewAgainst last (idNum m.idField) = true) := by
  induction msgs with
  | nil =>
    intro acc cur res out h
    simp only [diffLoop, Except.ok.injEq, Prod.mk.injEq] at h
    obtain ⟨h1, h2⟩ := h
    subst h1; subst h2
    exact ⟨le_rfl, fun m hm => Or.inl hm⟩
  | cons m0 rest ih =>
    intro acc cur res out h
    unfold diffLoop at h
    by_cases hm0 : m0.answered = some true
    · simp only [hm0, if_pos] at h
      cases hid : m0.idField with
      | numeric n =>
        rw [hid] at h
        obtain ⟨hle, hmem⟩ := ih (max acc n) _ res out h
        refine ⟨le_trans (le_max_left acc n) hle, fun m hm => ?_⟩
        rcases hmem m hm with hcur | hrest
        · by_cases hnew : isNewAgainst last n = true
          · rw [if_pos hnew] at hcur
            rcases List.mem_append.mp hcur with h1 | h1
            · exact Or.inl h1
            · have : m = m0 := List.mem_singleton.mp h1
              subst this
              exact Or.inr ⟨List.mem_cons_self m rest, hm0,
                by simp [isNumericId, hid],
                by simp only [idNum, hid]; exact le_trans (le_max_right acc n) hle,
                by simp only [idNum, hid]; exact hnew⟩
          · simp only [Bool.not_eq_true] at hnew
            rw [hnew] at hcur
            simp only [Bool.false_eq_true, if_false] at hcur
            exact Or.inl hcur
        · exact Or.inr ⟨List.mem_cons_of_mem m0 hrest.1, hrest.2.1, hrest.2.2.1,
            hrest.2.2.2.1, hrest.2.2.2.2⟩
      | missing => rw [hid] at h; exact absurd h (by simp)
      | nonNumeric s => rw [hid] at h; exact absurd h (by simp)
    · simp only [hm0, if_neg, if_false] at h
      obtain ⟨hle, hmem⟩ := ih acc cur res out h
      refine ⟨hle, fun m hm => ?_⟩
      rcases hmem m hm with hcur | hrest
      · exact Or.inl hcur
      · exact Or.inr ⟨List.mem_cons_of_mem m0 hrest.1, hrest.2.1, hrest.2.2.1,
          hrest.2.2.2.1, hrest.2.2.2.2⟩

/-- If some answered entry has an unparsable id, the diff loop raises. -/
theorem diffLoop_err (last : Option Int) (msgs : List Msg) :
    ∀ (acc : Int) (cur : List Msg) (m : Msg), m ∈ msgs → m.answered = some true →
    isNumericId m.idField = false →
    ∃ e, diffLoop last msgs acc cur = .error e := by
  induction msgs with
  | nil => intro acc cur m hm; exact absurd hm (List.not_mem_nil m)
  | cons m0 rest ih =>
    intro acc cur m hm ha hb
    unfold diffLoop
    by_cases hm0 : m0.answered = some true
    · simp only [hm0, if_pos]
      cases hid : m0.idField with
      | numeric n =>
        have hm' : m ∈ rest := by
          rcases List.mem_cons.mp hm with h | h
          · subst h; rw [hid] at hb; simp [isNumericId] at hb
          · exact h
        exact ih (max acc n) _ m hm' ha hb
      | missing => exact ⟨.typeError, rfl⟩
      | nonNumeric s => exact ⟨.valueError, rfl⟩
    · simp only [hm0, if_neg, if_false]
      have hm' : m ∈ rest := by
        rcases List.mem_cons.mp hm with h | h
        · subst h; exact absurd ha hm0
        · exact h
      exact ih acc cur m hm' ha hb

theorem diffLoop_cons_skip (last : Option Int) (m : Msg) (rest : List Msg) (acc : Int)
    (cur : List Msg) (hm : ¬ m.answered = some true) :
    diffLoop last (m :: rest) acc cur = diffLoop last rest acc cur := by
  conv_lhs => rw [diffLoop]
  rw [if_neg hm]

theorem diffLoop_cons_ans (last : Option Int) (m : Msg) (rest : List Msg) (acc : Int)
    (cur : List Msg) (n : Int) (hm : m.answered = some true) (hid : m.idField = .numeric n) :
    diffLoop last (m :: rest) acc cur =
      diffLoop last rest (max acc n) (if isNewAgainst last n then cur ++ [m] else cur) := by
  conv_lhs => rw [diffLoop]
  rw [if_pos hm, hid]

theorem diffLoop_cons_missing (last : Option Int) (m : Msg) (rest : List Msg) (acc : Int)
    (cur : List Msg) (hm : m.answered = some true) (hid : m.idField = .missing) :
    diffLoop last (m :: rest) acc cur = .error .typeError := by
  conv_lhs => rw [diffLoop]
  rw [if_pos hm, hid]

theorem diffLoop_cons_nonNumeric (last : Option Int) (m : Msg) (rest : List Msg) (acc : Int)
    (cur : List Msg) (s : String) (hm : m.answered = some true)
    (hid : m.idField = .nonNumeric s) :
    diffLoop last (m :: rest) acc cur = .error .valueError := by
  conv_lhs => rw [diffLoop]
  rw [if_pos hm, hid]

theorem isNewRecord_none (m : Msg) : isNewRecord none m = false := by
  unfold isNewRecord isNewAgainst
  cases m.idField <;> simp

theorem filter_isNewRecord_none (msgs : List Msg) : msgs.filter (isNewRecord none) = [] := by
  induction msgs with
  | nil => rfl
  | cons m rest ih => simp [List.filter, isNewRecord_none m, ih]

theorem isNewRecord_some_iff (c : Int) (hc0 : c ≠ 0) (m : Msg) :
    isNewRecord (some c) m = true ↔
      m.answered = some true ∧ isNumericId m.idField = true ∧ c < idNum m.idField := by
  unfold isNewRecord isNewAgainst
  cases hid : m.idField <;> simp [isNumericId, idNum, hc0]

/-- Full characterization of a cycle that reaches the cursor update: with a
non-empty listing whose answered entries all have numeric ids, the attempts
are the reversed new-record sublist and the cursor (memory and disk) becomes
the running max computed from 0. -/
theorem checkCycle_complete (d : Msg → Except PyError Unit) (st : BotState) (msgs : List Msg)
    (hne : msgs ≠ [])
    (hparse : ∀ m ∈ msgs, m.answered = some true → isNumericId m.idField = true) :
    checkForNewMessages d st (some msgs) =
      ⟨(msgs.filter (isNewRecord st.lastMessageId)).reverse,
       ((msgs.filter (isNewRecord st.lastMessageId)).reverse).map (sendMessageNotification d),
       ⟨some (answeredMax msgs 0), some (answeredMax msgs 0)⟩⟩ := by
  unfold checkForNewMessages
  have hemp : msgs.isEmpty = false := by
    cases msgs with
    | nil => exact absurd rfl hne
    | cons a l => rfl
  simp only [hemp, Bool.false_eq_true, if_false]
  rw [diffLoop_eq_ok st.lastMessageId msgs 0 [] hparse]
  simp

/-- Every notification attempt of a cycle is an answered listing entry with a
numeric id strictly above the truthy cursor, and the cycle's final cursor
bounds its id from above. -/
theorem notified_mem (d : Msg → Except PyError Unit) (st : BotState) (msgs : List Msg) (m : Msg)
    (h : m ∈ (checkForNewMessages d st (some msgs)).notified) :
    m ∈ msgs ∧ m.answered = some true ∧ isNumericId m.idField = true ∧
    isNewAgainst st.lastMessageId (idNum m.idField) = true ∧
    ∃ M : Int, (checkForNewMessages d st (some msgs)).state = ⟨some M, some M⟩ ∧
      idNum m.idField ≤ M := by
  unfold checkForNewMessages at h ⊢
  by_cases hl : msgs.isEmpty = true
  · simp [hl] at h
  · simp only [Bool.not_eq_true] at hl
    simp only [hl, Bool.false_eq_true, if_false] at h ⊢
    cases hdl : diffLoop st.lastMessageId msgs 0 [] with
    | error e =>
      rw [hdl] at h
      simp at h
    | ok val =>
      obtain ⟨res, out⟩ := val
      rw [hdl] at h
      dsimp only at h
      rw [List.mem_reverse] at h
      obtain ⟨-, hmem⟩ := diffLoop_mem_ok st.lastMessageId msgs 0 [] res out hdl
      rcases hmem m h with hcur | ⟨h1, h2, h3, h4, h5⟩
      · exact absurd hcur (List.not_mem_nil m)
      · exact ⟨h1, h2, h3, h5, res, rfl, h4⟩

/-! ## Claims about the poll cycle -/

/-- C1 counterexample. The claim says the cursor is never moved backward, but
`check_for_new_messages` assigns `new_last_message_id` unconditionally: with
cursor 9 and a listing whose only answered record has identifier 5, the cycle
sets and persists cursor 5, strictly below 9. -/
theorem cursor_moves_backward_counterexample :
    (checkForNewMessages deliverOk ⟨some 9, some 9⟩ (some [msg5A])).state.lastMessageId = some 5
    ∧ (checkForNewMessages deliverOk ⟨some 9, some 9⟩ (some [msg5A])).state.savedLastMessageId
        = some 5
    ∧ ¬ (9 : Int) ≤ 5 :=
  ⟨rfl, rfl, by decide⟩

/-- C1 amended: at the end of every cycle that reaches the cursor update (the
fetch produced a non-empty listing and every answered id parsed), the cursor —
in memory and persisted — is set unconditionally to the max identifier over
the answered records of that listing (0 when none), even when that value is
below the current cursor. -/
theorem cursor_set_unconditionally (d : Msg → Except PyError Unit) (st : BotState)
    (msgs : List Msg) (hne : msgs ≠ [])
    (hparse : ∀ m ∈ msgs, m.answered = some true → isNumericId m.idField = true) :
    (checkForNewMessages d st (some msgs)).state =
      ⟨some (answeredMax msgs 0), some (answeredMax msgs 0)⟩ := by
  rw [checkCycle_complete d st msgs hne hparse]

/-- Witness for `cursor_set_unconditionally`: cursor 9, answered listing {5}
ends with cursor 5. -/
theorem cursor_set_unconditionally_witness :
    (checkForNewMessages deliverOk ⟨some 9, some 9⟩ (some [msg5A])).state =
      ⟨some (answeredMax [msg5A] 0), some (answeredMax [msg5A] 0)⟩
    ∧ answeredMax [msg5A] 0 = 5 :=
  ⟨cursor_set_unconditionally deliverOk ⟨some 9, some 9⟩ [msg5A] (by decide) (by decide),
   by decide⟩

/-- C3 counterexample. The claim says new records are delivered sorted
ascending by identifier regardless of listing order; but the code sends
`reversed(new_messages)`, i.e. reverse listing order: with cursor 9 and a
listing that presents answered 11 before answered 14, the cycle notifies 14
first, then 11. -/
theorem delivery_order_counterexample :
    (checkForNewMessages deliverOk ⟨some 9, some 9⟩ (some [msg11A, msg14A])).notified
      = [msg14A, msg11A]
    ∧ ([msg14A, msg11A] : List Msg) ≠ [msg11A, msg14A] :=
  ⟨rfl, by decide⟩

/-- C3 amended: with a present non-zero cursor `c` and a fully parsable
non-empty listing, the notification attempts are exactly the answered records
with identifier above `c` (as a set), delivered in reverse listing order —
ascending by identifier only when the listing presents newest first — and the
cycle persists the max observed answered identifier. -/
theorem steady_state_delivery_amended (d : Msg → Except PyError Unit) (st : BotState)
    (c : Int) (msgs : List Msg)
    (hc : st.lastMessageId = some c) (hc0 : c ≠ 0) (hne : msgs ≠ [])
    (hparse : ∀ m ∈ msgs, m.answered = some true → isNumericId m.idField = true) :
    (checkForNewMessages d st (some msgs)).notified
      = (msgs.filter (isNewRecord (some c))).reverse
    ∧ (∀ m, m ∈ (checkForNewMessages d st (some msgs)).notified ↔
        (m ∈ msgs ∧ m.answered = some true ∧ isNumericId m.idField = true ∧
         c < idNum m.idField))
    ∧ (checkForNewMessages d st (some msgs)).state =
        ⟨some (answeredMax msgs 0), some (answeredMax msgs 0)⟩ := by
  rw [checkCycle_complete d st msgs hne hparse, hc]
  refine ⟨rfl, fun m => ?_, rfl⟩
  rw [List.mem_reverse, List.mem_filter, isNewRecord_some_iff c hc0 m]

/-- Witness for `steady_state_delivery_amended`: cursor 9, newest-first
listing with answered ids 14, 11, 9 notifies 11 then 14 and persists 14. -/
theorem steady_state_delivery_amended_witness :
    (checkForNewMessages deliverOk ⟨some 9, some 9⟩ (some [msg14A, msg11A, msg9A])).notified
      = ([msg14A, msg11A, msg9A].filter (isNewRecord (some 9))).reverse
    ∧ (checkForNewMessages deliverOk ⟨some 9, some 9⟩ (some [msg14A, msg11A, msg9A])).notified
      = [msg11A, msg14A]
    ∧ (checkForNewMessages deliverOk ⟨some 9, some 9⟩ (some [msg14A, msg11A, msg9A])).state
      = ⟨some 14, some 14⟩ :=
  ⟨(steady_state_delivery_amended deliverOk ⟨some 9, some 9⟩ 9 [msg14A, msg11A, msg9A]
      rfl (by decide) (by decide) (by decide)).1,
   rfl, rfl⟩

/-- C4 confirmed: a first-run cycle (absent cursor) over a non-empty, fully
parsable listing with at least one answered record and non-negative answered
identifiers notifies nothing and persists (in memory and on disk) the maximum
observed answered identifier. -/
theorem first_run_suppression (d : Msg → Except PyError Unit) (saved : Option Int)
    (msgs : List Msg) (hne : msgs ≠ [])
    (hparse : ∀ m ∈ msgs, m.answered = some true → isNumericId m.idField = true)
    (hex : ∃ m ∈ msgs, m.answered = some true)
    (hnn : ∀ m ∈ msgs, m.answered = some true → 0 ≤ idNum m.idField) :
    (checkForNewMessages d ⟨none, saved⟩ (some msgs)).notified = []
    ∧ (checkForNewMessages d ⟨none, saved⟩ (some msgs)).state =
        ⟨some (answeredMax msgs 0), some (answeredMax msgs 0)⟩
    ∧ (∀ m ∈ msgs, m.answered = some true → idNum m.idField ≤ answeredMax msgs 0)
    ∧ (∃ m ∈ msgs, m.answered = some true ∧ isNumericId m.idField = true ∧
        idNum m.idField = answeredMax msgs 0) := by
  rw [checkCycle_complete d ⟨none, saved⟩ msgs hne hparse]
  refine ⟨?_, ?_, ?_, ?_⟩
  · show (List.filter (isNewRecord (none : Option Int)) msgs).reverse = []
    rw [filter_isNewRecord_none msgs]
    rfl
  · rfl
  · intro m hm ha
    exact le_answeredMax msgs 0 m hm ha (hparse m hm ha)
  · rcases answeredMax_attained msgs 0 with h0 | hatt
    · obtain ⟨m, hm, ha⟩ := hex
      have hnum := hparse m hm ha
      have hub := le_answeredMax msgs 0 m hm ha hnum
      have hlb := hnn m hm ha
      rw [h0] at hub
      exact ⟨m, hm, ha, hnum, by omega⟩
    · exact hatt

/-- Witness for `first_run_suppression`: absent cursor, answered ids {5,7,9}
notifies nothing and persists 9. -/
theorem first_run_suppression_witness :
    (checkForNewMessages deliverOk ⟨none, none⟩ (some [msg5A, msg7A, msg9A])).notified = []
    ∧ (checkForNewMessages deliverOk ⟨none, none⟩ (some [msg5A, msg7A, msg9A])).state
        = ⟨some (answeredMax [msg5A, msg7A, msg9A] 0), some (answeredMax [msg5A, msg7A, msg9A] 0)⟩
    ∧ answeredMax [msg5A, msg7A, msg9A] 0 = 9 := by
  have h := first_run_suppression deliverOk none [msg5A, msg7A, msg9A]
    (by decide) (by decide) (by decide) (by decide)
  exact ⟨h.1, h.2.1, by decide⟩

/-- C7 confirmed: a record whose answered flag is falsy is skipped by the diff
loop — the loop's result over any listing containing it equals the result
over the listing without it, so it neither contributes to the observed max
nor becomes a new record — and it never appears among a cycle's notification
attempts. -/
theorem unanswered_exclusion (m : Msg) (hm : m.answered ≠ some true) :
    (∀ (last : Option Int) (xs ys : List Msg) (acc : Int) (cur : List Msg),
       diffLoop last (xs ++ m :: ys) acc cur = diffLoop last (xs ++ ys) acc cur)
    ∧ (∀ (d : Msg → Except PyError Unit) (st : BotState) (fetched : Option (List Msg)),
       m ∉ (checkForNewMessages d st fetched).notified) := by
  constructor
  · intro last xs
    induction xs with
    | nil =>
      intro ys acc cur
      simp only [List.nil_append]
      exact diffLoop_cons_skip last m ys acc cur hm
    | cons x xs' ih =>
      intro ys acc cur
      simp only [List.cons_append]
      by_cases hx : x.answered = some true
      · cases hid : x.idField with
        | numeric n =>
          rw [diffLoop_cons_ans last x _ acc cur n hx hid,
              diffLoop_cons_ans last x _ acc cur n hx hid]
          exact ih ys (max acc n) _
        | missing =>
          rw [diffLoop_cons_missing last x _ acc cur hx hid,
              diffLoop_cons_missing last x _ acc cur hx hid]
        | nonNumeric s =>
          rw [diffLoop_cons_nonNumeric last x _ acc cur s hx hid,
              diffLoop_cons_nonNumeric last x _ acc cur s hx hid]
      · rw [diffLoop_cons_skip last x _ acc cur hx, diffLoop_cons_skip last x _ acc cur hx]
        exact ih ys acc cur
  · intro d st fetched
    cases fetched with
    | none => exact List.not_mem_nil m
    | some msgs =>
      intro hmem
      exact hm (notified_mem d st msgs m hmem).2.1

/-- Witness for `unanswered_exclusion`: an unanswered record with identifier
20 and cursor 9 is skipped by the diff loop and never notified; the cycle
moves the cursor to the answered max 11, not to 20. -/
theorem unanswered_exclusion_witness :
    diffLoop (some 9) ([msg11A] ++ msg20U :: []) 0 [] = diffLoop (some 9) ([msg11A] ++ []) 0 []
    ∧ msg20U ∉ (checkForNewMessages deliverOk ⟨some 9, some 9⟩
        (some [msg11A, msg20U])).notified
    ∧ (checkForNewMessages deliverOk ⟨some 9, some 9⟩
        (some [msg11A, msg20U])).state.lastMessageId = some 11 :=
  ⟨(unanswered_exclusion msg20U (by decide)).1 (some 9) [msg11A] [] 0 [],
   (unanswered_exclusion msg20U (by decide)).2 deliverOk ⟨some 9, some 9⟩
     (some [msg11A, msg20U]),
   rfl⟩

/-- C10 confirmed: if some answered record of the listing has a missing or
non-numeric identifier, the integer conversion raises inside the diff loop —
before any notification is attempted — the exception is caught at the cycle
boundary, and the cycle ends with zero notifications and both the in-memory
and persisted cursor unchanged. -/
theorem unparsable_id_aborts_cycle (d : Msg → Except PyError Unit) (st : BotState)
    (msgs : List Msg) (m : Msg) (hm : m ∈ msgs) (ha : m.answered = some true)
    (hb : isNumericId m.idField = false) :
    checkForNewMessages d st (some msgs) = ⟨[], [], st⟩ := by
  obtain ⟨e, he⟩ := diffLoop_err st.lastMessageId msgs 0 [] m hm ha hb
  unfold checkForNewMessages
  have hemp : msgs.isEmpty = false := by
    cases msgs with
    | nil => exact absurd hm (List.not_mem_nil m)
    | cons a l => rfl
  simp [hemp, he]

/-- Witness for `unparsable_id_aborts_cycle`: an answered record whose id is
`None` aborts the cycle with no notifications and an unchanged cursor. -/
theorem unparsable_id_aborts_cycle_witness :
    checkForNewMessages deliverOk ⟨some 9, some 9⟩ (some [msg5A, msgBadId])
      = ⟨[], [], ⟨some 9, some 9⟩⟩ :=
  unparsable_id_aborts_cycle deliverOk ⟨some 9, some 9⟩ [msg5A, msgBadId] msgBadId
    (by decide) (by decide) (by decide)

/-- C5 counterexample. The claim says a record whose delivery failed is never
re-delivered in a later cycle; but the unconditional cursor assignment can
move the cursor back below that record's identifier, after which it is
delivered again: record 11's delivery fails in cycle one (cursor becomes 11),
cycle two sees only answered id 5 and regresses the cursor to 5, and cycle
three delivers record 11 a second time. -/
theorem failed_record_redelivered :
    (checkForNewMessages deliverFail ⟨some 9, some 9⟩ (some [msg11A])).notified = [msg11A]
    ∧ (checkForNewMessages deliverFail ⟨some 9, some 9⟩ (some [msg11A])).outcomes = [false]
    ∧ msg11A ∈ (checkForNewMessages deliverOk
        (checkForNewMessages deliverOk
          (checkForNewMessages deliverFail ⟨some 9, some 9⟩ (some [msg11A])).state
          (some [msg5A])).state
        (some [msg5A, msg11A])).notified := by
  refine ⟨rfl, rfl, ?_⟩
  decide

/-- C5 amended: within one cycle, the notification attempts and the final
cursor state do not depend on the delivery outcomes — a failed delivery
suppresses nothing and still lets the cursor advance to the observed max,
which is at or above the failed record's identifier, so that record is not
re-delivered in the immediately following cycle (re-delivery in a later cycle
remains possible only because the cursor can subsequently move backward). -/
theorem delivery_failure_resilience_amended
    (d d' d2 : Msg → Except PyError Unit) (st : BotState) (fetched : Option (List Msg))
    (msgs next : List Msg) (m : Msg)
    (h : m ∈ (checkForNewMessages d st (some msgs)).notified) :
    ((checkForNewMessages d st fetched).notified = (checkForNewMessages d' st fetched).notified
     ∧ (checkForNewMessages d st fetched).state = (checkForNewMessages d' st fetched).state)
    ∧ m ∉ (checkForNewMessages d2 (checkForNewMessages d st (some msgs)).state
        (some next)).notified := by
  constructor
  · cases fetched with
    | none => exact ⟨rfl, rfl⟩
    | some l =>
      unfold checkForNewMessages
      by_cases hl : l.isEmpty = true
      · simp [hl]
      · simp only [Bool.not_eq_true] at hl
        simp only [hl, Bool.false_eq_true, if_false]
        cases hdl : diffLoop st.lastMessageId l 0 [] with
        | error e => exact ⟨rfl, rfl⟩
        | ok val =>
          obtain ⟨res, out⟩ := val
          exact ⟨rfl, rfl⟩
  · intro hmem2
    obtain ⟨-, -, -, -, M, hstate, hle⟩ := notified_mem d st msgs m h
    rw [hstate] at hmem2
    obtain ⟨-, -, -, hnew2, -⟩ := notified_mem d2 ⟨some M, some M⟩ next m hmem2
    unfold isNewAgainst at hnew2
    simp only [Bool.and_eq_true, decide_eq_true_eq] at hnew2
    exact absurd hle (not_le.mpr hnew2.2)

/-- Witness for `delivery_failure_resilience_amended`: record 11 is attempted
(and fails) with cursor 9; the attempts and final state match the all-success
run, and record 11 is not notified in the immediately following cycle. -/
theorem delivery_failure_resilience_amended_witness :
    msg11A ∈ (checkForNewMessages deliverFail ⟨some 9, some 9⟩ (some [msg11A])).notified
    ∧ (((checkForNewMessages deliverFail ⟨some 9, some 9⟩ (some [msg11A])).notified
        = (checkForNewMessages deliverOk ⟨some 9, some 9⟩ (some [msg11A])).notified
       ∧ (checkForNewMessages deliverFail ⟨some 9, some 9⟩ (some [msg11A])).state
        = (checkForNewMessages deliverOk ⟨some 9, some 9⟩ (some [msg11A])).state)
      ∧ msg11A ∉ (checkForNewMessages deliverOk
          (checkForNewMessages deliverFail ⟨some 9, some 9⟩ (some [msg11A])).state
          (some [msg11A])).notified) :=
  ⟨by decide,
   delivery_failure_resilience_amended deliverFail deliverOk deliverOk ⟨some 9, some 9⟩
     (some [msg11A]) [msg11A] [msg11A] msg11A (by decide)⟩

/-! ## Claims about the portal client -/

/-- C8 confirmed: the probe classifies the session as stale exactly when the
response status is 303 (the portal's not-authenticated redirect) or the
request raised (fail-closed); every other status is classified as valid. -/
theorem probe_classification (r : ProbeResp) :
    isSessionValid r = false ↔ (r = .status 303 ∨ r = .netErr) := by
  cases r with
  | status n => simp [isSessionValid]
  | netErr => simp [isSessionValid]

/-- C6 counterexample. The claim says session load never raises to the caller;
but the `except` clause of `_load_session` catches only `JSONDecodeError` and
`KeyError`, so a snapshot that is valid JSON whose cookie entry has a shape
`cookies.set(**cookie)` rejects raises `TypeError` out of the load. -/
theorem load_session_raises_counterexample :
    loadSession ⟨[], false⟩ (.parsed [.badShape]) (.status 200) = .error .typeError := rfl

/-- C6 amended: on a JSON-undecodable snapshot the load does not raise, clears
the cookie jar, and leaves the client unauthenticated; but a deserialization
failure while restoring a cookie entry (a `TypeError` from `cookies.set`)
escapes to the caller. -/
theorem load_session_malformed_amended (cookieJar : List Cookie) (probe : ProbeResp) :
    loadSession ⟨cookieJar, false⟩ .malformed probe = .ok ⟨[], false⟩ := rfl

/-- C9 confirmed: a detail page whose answer block is absent and whose question
block carries non-empty content text yields (without failing — the extraction
returns a record) a detail whose sender is empty, whose answer is empty, and
whose question is that non-empty text. -/
theorem extraction_degradation (url : String) (p : DetailPage) (qb : QuestionBlock)
    (q : String) (hq : p.question = some qb) (hqc : qb.content = some q) (hne : q ≠ "")
    (ha : p.answer = none) :
    getMessageDetails true url (some p) = some (parseMessageDetails url p)
    ∧ (parseMessageDetails url p).sender = none
    ∧ (parseMessageDetails url p).answer = ""
    ∧ (parseMessageDetails url p).question = q
    ∧ (parseMessageDetails url p).question ≠ "" := by
  refine ⟨rfl, ?_, ?_, ?_, ?_⟩ <;> simp [parseMessageDetails, hq, hqc, ha, hne]

/-- Witness for `extraction_degradation`: a page with a question, no answer. -/
theorem extraction_degradation_witness :
    getMessageDetails true "u" (some pageNoAnswer) = some (parseMessageDetails "u" pageNoAnswer)
    ∧ (parseMessageDetails "u" pageNoAnswer).sender = none
    ∧ (parseMessageDetails "u" pageNoAnswer).answer = ""
    ∧ (parseMessageDetails "u" pageNoAnswer).question = "How are you?"
    ∧ (parseMessageDetails "u" pageNoAnswer).question ≠ "" :=
  extraction_degradation "u" pageNoAnswer ⟨some "How are you?"⟩ "How are you?"
    rfl rfl (by decide) rfl

/-- C2 counterexample. The claim says a question with an attachment path that
does not exist is rejected locally before any network call; but `ask_question`
silently drops the missing attachment, performs both network calls, and even
reports success. -/
theorem missing_attachment_not_rejected :
    (askQuestion true "hello" false (some "/no/such/file") envC2).1
      = [.getConsult, .postConsult [("token", "tok"), ("question", "hello"), ("draft", "")] none]
    ∧ (askQuestion true "hello" false (some "/no/such/file") envC2).2 = true
    ∧ (askQuestion true "hello" false (some "/no/such/file") envC2).1 ≠ [] := by
  refine ⟨rfl, rfl, ?_⟩
  decide

/-- C2 amended: question text longer than 600 characters is rejected at the
command layer before any portal network call (not even the liveness probe is
issued); a nonexistent attachment path, however, is not rejected — the
attachment is silently omitted and the submission proceeds exactly as if no
attachment had been supplied. -/
theorem question_validation_amended :
    (∀ (args : List String) (isAuth : Bool) (env : PortalEnv),
       600 < (String.intercalate " " args).length →
       askCommand args isAuth env = (.tooLong, []))
    ∧ (∀ (q : String) (d : Bool) (p : String) (env : PortalEnv),
       env.pathExists p = false →
       askQuestion true q d (some p) env = askQuestion true q d none env) := by
  constructor
  · intro args isAuth env h
    unfold askCommand
    have hargs : args.isEmpty = false := by
      cases args with
      | nil => exact absurd h (by decide)
      | cons a l => rfl
    simp only [hargs, Bool.false_eq_true, if_false]
    rw [if_pos h]
  · intro q d p env hp
    unfold askQuestion
    simp only [hp]
    rfl

/-- Witness for `question_validation_amended`: a 601-character question is
rejected with zero portal calls. -/
theorem question_validation_amended_witness :
    600 < (String.intercalate " " [q601]).length
    ∧ askCommand [q601] true envC2 = (.tooLong, []) := by
  have h : 600 < (String.intercalate " " [q601]).length := by
    show 600 < q601.length
    have hl : q601.length = 601 := by
      show (List.replicate 601 'a').length = 601
      exact List.length_replicate 601 'a'
    omega
  exact ⟨h, question_validation_amended.1 [q601] true envC2 h⟩

end MedPortal
